import Mathlib

/-!
# UPower power-syscall adapter (`xbmc/powermanagement/linux/UPowerSyscall.cpp`)

A shallow embedding of `CUPowerSource` and `CUPowerSyscall`.

Conventions of the embedding:

* The adapter is a record of its member variables; every member function is a
  pure function from the record (and the answers of the bus) to the new record,
  the returned value and the list of callback hooks it invoked, in order.
* The D-Bus daemon is outside the program.  Each operation takes the answers
  the bus gives to the calls the operation performs, in the order the source
  performs them.  A call that gets no answer yields the null variant.
* A stored `double` is represented by the rational number it denotes (`ℚ`).
  No `double` arithmetic is modelled: the only operations on levels in this
  development are storing and reading them.
-/

namespace UPower

/-! ## Collaborators declared outside `UPowerSyscall.cpp` -/

/-- Modelled from the spec: the `CVariant` value type (declared in
`utils/Variant.h`, not part of this file).  The spec names the reply fields
("IsRechargeable", a boolean; "Percentage", a floating-point percentage; the
capability booleans) and says that a failed or malformed query makes the caller
receive a default value (false, 0).  Only the variant kinds the spec mentions
are modelled. -/
inductive CVariant where
  | VariantTypeNull : CVariant
  | VariantTypeBoolean (b : Bool) : CVariant
  | VariantTypeDouble (d : ℚ) : CVariant
  | VariantTypeObject (fields : List (String × CVariant)) : CVariant

namespace CVariant

/-- Modelled from the spec: `CVariant::operator[](key)`: the member stored under
`key` of an object variant; the null variant when the variant is not an object
or has no such member. -/
def get (v : CVariant) (key : String) : CVariant :=
  match v with
  | VariantTypeObject fields => (fields.lookup key).getD VariantTypeNull
  | _ => VariantTypeNull

/-- Modelled from the spec: `CVariant::asBoolean(fallback)`: the boolean held,
`fallback` when the variant holds none. -/
def asBoolean (v : CVariant) (fallback : Bool) : Bool :=
  match v with
  | VariantTypeBoolean b => b
  | _ => fallback

/-- Modelled from the spec: `CVariant::asDouble(fallback)`: the number held,
`fallback` when the variant holds none. -/
def asDouble (v : CVariant) (fallback : ℚ) : ℚ :=
  match v with
  | VariantTypeDouble d => d
  | _ => fallback

/-- Modelled from the spec: the fallback of a call `asBoolean()` written
without an argument ("default value (false, ...)"). -/
def asBooleanDefault : Bool := false

/-- Modelled from the spec: the fallback of a call `asDouble()` written
without an argument ("default value (..., 0, ...)"). -/
def asDoubleDefault : ℚ := 0

end CVariant

/-- The four D-Bus message types (libdbus). -/
inductive DBusMessageType where
  | methodCall
  | methodReturn
  | error
  | signal
deriving DecidableEq, Repr

/-- The part of an incoming `DBusMessage` that `PumpPowerEvents` inspects. -/
structure DBusMessage where
  type : DBusMessageType
  interface : String
  member : String
deriving DecidableEq, Repr

/-- libdbus `dbus_message_is_signal(msg, iface, name)`: the message is a signal
of interface `iface` with member `name`. -/
def dbus_message_is_signal (msg : DBusMessage) (iface name : String) : Bool :=
  msg.type == DBusMessageType.signal && msg.interface == iface && msg.member == name

/-- The body of a method reply as seen by
`dbus_message_get_args(reply, NULL, DBUS_TYPE_ARRAY, DBUS_TYPE_OBJECT_PATH, &source, &length, DBUS_TYPE_INVALID)`:
either it parses as an array of object paths, or `dbus_message_get_args`
returns false. -/
inductive DBusReplyBody where
  | objectPathArray (source : List String)
  | mismatch
deriving DecidableEq, Repr

/-- The three hooks of `IPowerEventsCallback`; a run of `PumpPowerEvents` is
observed through the list of hooks it invoked. -/
inductive PowerEvent where
  | OnSleep
  | OnWake
  | OnLowBattery
deriving DecidableEq, Repr

/-! ## `CUPowerSource` -/

/-- The members of `CUPowerSource`. -/
structure CUPowerSource where
  m_powerSource : String
  m_isRechargeable : Bool
  m_batteryLevel : ℚ
deriving DecidableEq

namespace CUPowerSource

/-- `CUPowerSource::Update()`; `properties` is the answer of
`CDBusUtil::GetAll(..., m_powerSource, "org.freedesktop.UPower.Device")`. -/
def Update (self : CUPowerSource) (properties : CVariant) : CUPowerSource :=
  { self with
    m_batteryLevel := (properties.get "Percentage").asDouble CVariant.asDoubleDefault }

/-- `CUPowerSource::CUPowerSource(powerSource)`; `properties` answers the
`GetAll` of the constructor, `properties2` the one of the `Update()` it ends
with.  `m_batteryLevel` has no value before `Update()` assigns it. -/
def new (powerSource : Option String) (properties properties2 : CVariant) : CUPowerSource :=
  Update
    { m_powerSource := powerSource.getD ""
      m_isRechargeable := (properties.get "IsRechargeable").asBoolean CVariant.asBooleanDefault
      m_batteryLevel := 0 }
    properties2

/-- `CUPowerSource::IsRechargeable()`. -/
def IsRechargeable (self : CUPowerSource) : Bool := self.m_isRechargeable

/-- `CUPowerSource::BatteryLevel()`. -/
def BatteryLevel (self : CUPowerSource) : ℚ := self.m_batteryLevel

end CUPowerSource

/-! ## `CUPowerSyscall` -/

/-- The members of `CUPowerSyscall`.  `m_connection` is `none` for a null
connection (never connected, or destroyed) and otherwise holds the incoming
message queue of the live connection, oldest message first. -/
structure CUPowerSyscall where
  m_connection : Option (List DBusMessage)
  m_CanPowerdown : Bool
  m_CanSuspend : Bool
  m_CanHibernate : Bool
  m_CanReboot : Bool
  m_lowBattery : Bool
  m_powerSources : List CUPowerSource
deriving DecidableEq

/-- What one call of `PumpPowerEvents` does: the value returned, the adapter
afterwards, and the hooks invoked on the callback. -/
structure PumpOutcome where
  result : Bool
  self : CUPowerSyscall
  calls : List PowerEvent
deriving DecidableEq

/-- The bus as seen by one call of `PumpPowerEvents`: the messages that
`dbus_connection_read_write(m_connection, 0)` moves into the incoming queue,
and the answers to the two `GetVariant` calls of `UpdateCapabilities`. -/
structure PumpInput where
  arrivals : List DBusMessage
  canSuspend : CVariant
  canHibernate : CVariant

namespace CUPowerSyscall

/-- `CUPowerSyscall::UpdateCapabilities()`; the two variants answer
`GetVariant(..., "CanSuspend")` and `GetVariant(..., "CanHibernate")`. -/
def UpdateCapabilities (self : CUPowerSyscall) (canSuspend canHibernate : CVariant) :
    CUPowerSyscall :=
  { self with
    m_CanSuspend := canSuspend.asBoolean false
    m_CanHibernate := canHibernate.asBoolean false }

/-- The records `EnumeratePowerSources` pushes for the returned paths: one
`CUPowerSource(source[i])` per path, in order; each construction consumes two
`GetAll` answers. -/
def enumerated : List String → List CVariant → List CUPowerSource
  | [], _ => []
  | path :: rest, answers =>
    CUPowerSource.new (some path) (answers.headD CVariant.VariantTypeNull)
        (answers.tail.headD CVariant.VariantTypeNull)
      :: enumerated rest answers.tail.tail

/-- `CUPowerSyscall::EnumeratePowerSources()`; `reply` is what
`message.SendSystem()` returns (`none` for NULL), `answers` the `GetAll` answers
for the constructed records. -/
def EnumeratePowerSources (self : CUPowerSyscall) (reply : Option DBusReplyBody)
    (answers : List CVariant) : CUPowerSyscall :=
  match reply with
  | some (DBusReplyBody.objectPathArray source) =>
    { self with m_powerSources := self.m_powerSources ++ enumerated source answers }
  | _ => self

/-- The loop of `BatteryLevel()` as far as the records are concerned:
`itr->Update()` on every record, in list order, the k-th record with the k-th
`GetAll` answer. -/
def batteryLoop : List CUPowerSource → List CVariant → List CUPowerSource
  | [], _ => []
  | itr :: rest, answers =>
    itr.Update (answers.headD CVariant.VariantTypeNull) :: batteryLoop rest answers.tail

/-- `CUPowerSyscall::BatteryLevel()`: the adapter after the call.  The returned
percentage is computed from the refreshed levels with `double` additions, a
`double` division and an `(int)` cast; that arithmetic is outside this
development, so the returned value is not modelled. -/
def BatteryLevel (self : CUPowerSyscall) (answers : List CVariant) : CUPowerSyscall :=
  { self with m_powerSources := batteryLoop self.m_powerSources answers }

/-- `CUPowerSyscall::CanPowerdown()`. -/
def CanPowerdown (self : CUPowerSyscall) : Bool := self.m_CanPowerdown

/-- `CUPowerSyscall::CanSuspend()`. -/
def CanSuspend (self : CUPowerSyscall) : Bool := self.m_CanSuspend

/-- `CUPowerSyscall::CanHibernate()`. -/
def CanHibernate (self : CUPowerSyscall) : Bool := self.m_CanHibernate

/-- `CUPowerSyscall::CanReboot()`. -/
def CanReboot (self : CUPowerSyscall) : Bool := self.m_CanReboot

/-- `CUPowerSyscall::Powerdown()`. -/
def Powerdown (_self : CUPowerSyscall) : Bool := false

/-- `CUPowerSyscall::Reboot()`. -/
def Reboot (_self : CUPowerSyscall) : Bool := false

/-- `CUPowerSyscall::Suspend()`; the arguments are the results of the two
`SendAsyncSystem()` calls. -/
def Suspend (_self : CUPowerSyscall) (_aboutToSleepSent sent : Bool) : Bool := sent

/-- `CUPowerSyscall::Hibernate()`; the arguments are the results of the two
`SendAsyncSystem()` calls. -/
def Hibernate (_self : CUPowerSyscall) (_aboutToSleepSent sent : Bool) : Bool := sent

/-- `CUPowerSyscall::PumpPowerEvents(callback)`. -/
def PumpPowerEvents (self : CUPowerSyscall) (bus : PumpInput) : PumpOutcome :=
  match self.m_connection with
  | none => { result := false, self := self, calls := [] }
  | some queue =>
    match queue ++ bus.arrivals with
    | [] => { result := false, self := { self with m_connection := some [] }, calls := [] }
    | msg :: rest =>
      let self1 := { self with m_connection := some rest }
      if dbus_message_is_signal msg "org.freedesktop.UPower" "Sleeping" then
        { result := true, self := self1, calls := [PowerEvent.OnSleep] }
      else if dbus_message_is_signal msg "org.freedesktop.UPower" "Resuming" then
        { result := true, self := self1, calls := [PowerEvent.OnWake] }
      else if dbus_message_is_signal msg "org.freedesktop.UPower" "Changed" then
        let lowBattery := self1.m_lowBattery
        let self2 := self1.UpdateCapabilities bus.canSuspend bus.canHibernate
        if self2.m_lowBattery && !lowBattery then
          { result := true, self := self2, calls := [PowerEvent.OnLowBattery] }
        else
          { result := true, self := self2, calls := [] }
      else
        { result := true, self := self1, calls := [] }

/-- The bus as seen by the constructor: whether
`m_connection.Connect(DBUS_BUS_SYSTEM, true)` succeeds, the messages already in
the incoming queue of the fresh connection, whether `dbus_bus_add_match` set
`error`, and the answers to the calls of `UpdateCapabilities()` and
`EnumeratePowerSources()`. -/
structure ConstructorInput where
  connected : Bool
  queued : List DBusMessage
  matchError : Bool
  canSuspend : CVariant
  canHibernate : CVariant
  enumerateReply : Option DBusReplyBody
  answers : List CVariant

/-- `CUPowerSyscall::CUPowerSyscall()`.  `m_CanSuspend` and `m_CanHibernate`
have no value before `UpdateCapabilities()` assigns them. -/
def new (bus : ConstructorInput) : CUPowerSyscall :=
  let self0 : CUPowerSyscall :=
    { m_connection :=
        if bus.connected then
          if bus.matchError then none else some bus.queued
        else none
      m_CanPowerdown := false
      m_CanSuspend := false
      m_CanHibernate := false
      m_CanReboot := false
      m_lowBattery := false
      m_powerSources := [] }
  (self0.UpdateCapabilities bus.canSuspend bus.canHibernate).EnumeratePowerSources
    bus.enumerateReply bus.answers

/-- Successive calls of `PumpPowerEvents`, one per element of the list; the
outcomes in call order. -/
def pumpAll : CUPowerSyscall → List PumpInput → List PumpOutcome
  | _, [] => []
  | self, bus :: rest =>
    let out := self.PumpPowerEvents bus
    out :: pumpAll out.self rest

end CUPowerSyscall

/-- One operation on the adapter, with the answers of the bus it consumes. -/
inductive Operation where
  | PumpPowerEvents (bus : PumpInput)
  | BatteryLevel (answers : List CVariant)
  | Suspend (aboutToSleepSent sent : Bool)
  | Hibernate (aboutToSleepSent sent : Bool)
  | Powerdown
  | Reboot
  | CanPowerdown
  | CanSuspend
  | CanHibernate
  | CanReboot
  | UpdateCapabilities (canSuspend canHibernate : CVariant)
  | EnumeratePowerSources (reply : Option DBusReplyBody) (answers : List CVariant)

/-- The adapter after one operation, and the hooks the operation invoked. -/
def perform (self : CUPowerSyscall) : Operation → CUPowerSyscall × List PowerEvent
  | Operation.PumpPowerEvents bus =>
    ((self.PumpPowerEvents bus).self, (self.PumpPowerEvents bus).calls)
  | Operation.BatteryLevel answers => (self.BatteryLevel answers, [])
  | Operation.UpdateCapabilities canSuspend canHibernate =>
    (self.UpdateCapabilities canSuspend canHibernate, [])
  | Operation.EnumeratePowerSources reply answers =>
    (self.EnumeratePowerSources reply answers, [])
  | _ => (self, [])

/-- The adapter after a sequence of operations, and all hooks invoked, in
order. -/
def performAll : CUPowerSyscall → List Operation → CUPowerSyscall × List PowerEvent
  | self, [] => (self, [])
  | self, op :: rest =>
    let one := perform self op
    let more := performAll one.1 rest
    (more.1, one.2 ++ more.2)

/-! ## Notions the properties are stated with -/

/-- The answers of the capability query an operation performs, if it performs
one: `UpdateCapabilities()` itself, or a pump step that consumes a "Changed"
signal. -/
def capabilityQuery (self : CUPowerSyscall) : Operation → Option (CVariant × CVariant)
  | Operation.UpdateCapabilities canSuspend canHibernate => some (canSuspend, canHibernate)
  | Operation.PumpPowerEvents bus =>
    match self.m_connection with
    | none => none
    | some queue =>
      match queue ++ bus.arrivals with
      | [] => none
      | msg :: _ =>
        if dbus_message_is_signal msg "org.freedesktop.UPower" "Changed" then
          some (bus.canSuspend, bus.canHibernate)
        else none
  | _ => none

/-- The answers of the most recent capability query along a sequence of
operations; `latest` are the answers of the most recent query before it. -/
def latestQuery : CUPowerSyscall → List Operation → CVariant × CVariant → CVariant × CVariant
  | _, [], latest => latest
  | self, op :: rest, latest =>
    latestQuery (perform self op).1 rest ((capabilityQuery self op).getD latest)

/-- The adapter with the head of the incoming queue popped. -/
def popped (self : CUPowerSyscall) (rest : List DBusMessage) : CUPowerSyscall :=
  { self with m_connection := some rest }

/-! ## Concrete adapters and bus answers -/

/-- The `GetAll` answer of a device reporting the given percentage. -/
def percentage (level : ℚ) : CVariant :=
  CVariant.VariantTypeObject [("Percentage", CVariant.VariantTypeDouble level)]

/-- A signal of the UPower interface with the given member name. -/
def upowerSignal (name : String) : DBusMessage :=
  { type := DBusMessageType.signal, interface := "org.freedesktop.UPower", member := name }

/-- The bus during a pump step in which the given messages arrive and the
daemon reports that it can suspend but not hibernate. -/
def arriving (messages : List DBusMessage) : PumpInput :=
  { arrivals := messages
    canSuspend := CVariant.VariantTypeBoolean true
    canHibernate := CVariant.VariantTypeBoolean false }

/-- An adapter holding one rechargeable record. -/
def oneBattery : CUPowerSyscall :=
  { m_connection := some []
    m_CanPowerdown := false
    m_CanSuspend := true
    m_CanHibernate := true
    m_CanReboot := false
    m_lowBattery := false
    m_powerSources :=
      [{ m_powerSource := "/org/freedesktop/UPower/devices/battery_BAT0"
         m_isRechargeable := true
         m_batteryLevel := 80 }] }

/-- A record with a previously read level of 75. -/
def readBattery : CUPowerSource :=
  { m_powerSource := "/org/freedesktop/UPower/devices/battery_BAT0"
    m_isRechargeable := true
    m_batteryLevel := 75 }

/-- An adapter with a live connection holding three queued messages. -/
def threeQueued : CUPowerSyscall :=
  { oneBattery with
    m_connection :=
      some [upowerSignal "Changed", upowerSignal "Sleeping", upowerSignal "DeviceAdded"] }

/-- The bus at a construction where connecting succeeds but the signal match
is refused; the daemon otherwise answers normally. -/
def refusedMatch : CUPowerSyscall.ConstructorInput :=
  { connected := true
    queued := [upowerSignal "Sleeping"]
    matchError := true
    canSuspend := CVariant.VariantTypeBoolean true
    canHibernate := CVariant.VariantTypeBoolean true
    enumerateReply := some (DBusReplyBody.objectPathArray
      ["/org/freedesktop/UPower/devices/battery_BAT0"])
    answers := [CVariant.VariantTypeObject
      [("IsRechargeable", CVariant.VariantTypeBoolean true)], percentage 55] }

/-- The bus at a construction where everything succeeds except the
"CanHibernate" query: the daemon can suspend, no device is enumerated. -/
def connectedBus : CUPowerSyscall.ConstructorInput :=
  { connected := true
    queued := []
    matchError := false
    canSuspend := CVariant.VariantTypeBoolean true
    canHibernate := CVariant.VariantTypeNull
    enumerateReply := none
    answers := [] }

/-- A pump step in which a "Changed" signal arrives and the daemon now reports
that it cannot suspend but can hibernate. -/
def changedStep : Operation :=
  Operation.PumpPowerEvents
    { arrivals := [upowerSignal "Changed"]
      canSuspend := CVariant.VariantTypeBoolean false
      canHibernate := CVariant.VariantTypeBoolean true }

/-! ## `CUPowerSource::Update` -/

/-- C7 (as stated, refuted): a record whose previously read level is 75 has
level 0 after an `Update()` whose query got no reply, and also after one whose
reply has no "Percentage" field: the previous level is not kept. -/
theorem Update_keeps_level_counterexample :
    readBattery.m_batteryLevel = 75 ∧
      (readBattery.Update CVariant.VariantTypeNull).m_batteryLevel = 0 ∧
      (readBattery.Update (CVariant.VariantTypeObject
        [("IsRechargeable", CVariant.VariantTypeBoolean true)])).m_batteryLevel = 0 ∧
      (readBattery.Update CVariant.VariantTypeNull).m_batteryLevel ≠
        readBattery.m_batteryLevel := by
  refine ⟨rfl, ?_, ?_, ?_⟩
  · simp [CUPowerSource.Update, CVariant.get, CVariant.asDouble, CVariant.asDoubleDefault]
  · simp [CUPowerSource.Update, CVariant.get, CVariant.asDouble, CVariant.asDoubleDefault,
      List.lookup]
  · simp [CUPowerSource.Update, CVariant.get, CVariant.asDouble, CVariant.asDoubleDefault,
      readBattery]

/-- C7 (amended): `Update()` never changes the identifier or the rechargeable
flag; when the property query errors (no reply, or a reply with no "Percentage"
field) the battery level after `Update()` is the default 0, whatever the
previously read level was; when the reply reports a percentage the level is
that percentage. -/
theorem Update_failed_query_level (self : CUPowerSource) (properties : CVariant) :
    (self.Update properties).m_powerSource = self.m_powerSource ∧
      (self.Update properties).m_isRechargeable = self.m_isRechargeable ∧
      (properties = CVariant.VariantTypeNull → (self.Update properties).m_batteryLevel = 0) ∧
      (∀ fields, properties = CVariant.VariantTypeObject fields →
        fields.lookup "Percentage" = none → (self.Update properties).m_batteryLevel = 0) ∧
      (∀ fields level, properties = CVariant.VariantTypeObject fields →
        fields.lookup "Percentage" = some (CVariant.VariantTypeDouble level) →
        (self.Update properties).m_batteryLevel = level) := by
  refine ⟨rfl, rfl, ?_, ?_, ?_⟩
  · intro h
    subst h
    simp [CUPowerSource.Update, CVariant.get, CVariant.asDouble, CVariant.asDoubleDefault]
  · intro fields h hno
    subst h
    simp [CUPowerSource.Update, CVariant.get, CVariant.asDouble, CVariant.asDoubleDefault, hno]
  · intro fields level h hsome
    subst h
    simp [CUPowerSource.Update, CVariant.get, CVariant.asDouble, hsome]

/-- C7 at a concrete record: previously read level 75, then a query without
reply, one without "Percentage" and one reporting 30. -/
theorem Update_failed_query_level_witness :
    (readBattery.Update CVariant.VariantTypeNull).m_batteryLevel = 0 ∧
      (readBattery.Update (CVariant.VariantTypeObject
        [("IsRechargeable", CVariant.VariantTypeBoolean true)])).m_batteryLevel = 0 ∧
      (readBattery.Update (percentage 30)).m_batteryLevel = 30 :=
  ⟨(Update_failed_query_level readBattery CVariant.VariantTypeNull).2.2.1 rfl,
    (Update_failed_query_level readBattery (CVariant.VariantTypeObject
      [("IsRechargeable", CVariant.VariantTypeBoolean true)])).2.2.2.1 _ rfl
      (by simp [List.lookup]),
    (Update_failed_query_level readBattery (percentage 30)).2.2.2.2 _ 30 rfl
      (by simp [List.lookup])⟩

/-! ## `EnumeratePowerSources` -/

theorem new_powerSource (path : String) (properties properties2 : CVariant) :
    (CUPowerSource.new (some path) properties properties2).m_powerSource = path := rfl

theorem enumerated_length (source : List String) (answers : List CVariant) :
    (CUPowerSyscall.enumerated source answers).length = source.length := by
  induction source generalizing answers with
  | nil => rfl
  | cons path rest ih => simp [CUPowerSyscall.enumerated, ih]

theorem enumerated_paths (source : List String) (answers : List CVariant) :
    (CUPowerSyscall.enumerated source answers).map (fun record => record.m_powerSource)
      = source := by
  induction source generalizing answers with
  | nil => rfl
  | cons path rest ih => simp [CUPowerSyscall.enumerated, ih, new_powerSource]

/-- C9: `EnumeratePowerSources` leaves the adapter (so the source list) as it
was when there is no reply or the reply is not an array of object paths;
otherwise the list becomes the old list followed by one new record per returned
path, in the order returned (as many records as paths, the i-th one identified
by the i-th path), and nothing else in the adapter changes. -/
theorem EnumeratePowerSources_appends (self : CUPowerSyscall) (answers : List CVariant) :
    self.EnumeratePowerSources none answers = self ∧
      self.EnumeratePowerSources (some DBusReplyBody.mismatch) answers = self ∧
      ∀ source : List String,
        self.EnumeratePowerSources (some (DBusReplyBody.objectPathArray source)) answers =
            { self with
              m_powerSources := self.m_powerSources ++ CUPowerSyscall.enumerated source answers } ∧
          (CUPowerSyscall.enumerated source answers).length = source.length ∧
          (CUPowerSyscall.enumerated source answers).map (fun record => record.m_powerSource)
            = source ∧
          (self.EnumeratePowerSources (some (DBusReplyBody.objectPathArray source))
            answers).m_powerSources.length = self.m_powerSources.length + source.length ∧
          (self.EnumeratePowerSources (some (DBusReplyBody.objectPathArray source))
            answers).m_powerSources.take self.m_powerSources.length = self.m_powerSources := by
  refine ⟨rfl, rfl, fun source => ⟨rfl, enumerated_length _ _, enumerated_paths _ _, ?_, ?_⟩⟩
  · simp [CUPowerSyscall.EnumeratePowerSources, enumerated_length]
  · simp [CUPowerSyscall.EnumeratePowerSources]

/-- C9 at a concrete adapter holding one record: a reply listing two paths
appends two records, identified by the two paths in order, after the old
record; a reply that is not an array of object paths changes nothing. -/
theorem EnumeratePowerSources_appends_witness :
    (oneBattery.EnumeratePowerSources
        (some (DBusReplyBody.objectPathArray
          ["/org/freedesktop/UPower/devices/line_power_AC",
            "/org/freedesktop/UPower/devices/battery_BAT1"]))
        []).m_powerSources.map (fun record => record.m_powerSource) =
        ["/org/freedesktop/UPower/devices/battery_BAT0",
          "/org/freedesktop/UPower/devices/line_power_AC",
          "/org/freedesktop/UPower/devices/battery_BAT1"] ∧
      oneBattery.EnumeratePowerSources (some DBusReplyBody.mismatch) [] = oneBattery := by
  have key := EnumeratePowerSources_appends oneBattery []
  refine ⟨?_, key.2.1⟩
  rw [(key.2.2 _).1]
  simp only [List.map_append, (key.2.2 _).2.2.1]
  rfl

/-! ## `PumpPowerEvents`: one step -/

theorem pump_null (self : CUPowerSyscall) (bus : PumpInput) (h : self.m_connection = none) :
    self.PumpPowerEvents bus = { result := false, self := self, calls := [] } := by
  unfold CUPowerSyscall.PumpPowerEvents
  rw [h]

theorem pump_empty (self : CUPowerSyscall) (bus : PumpInput) (queue : List DBusMessage)
    (h : self.m_connection = some queue) (hq : queue ++ bus.arrivals = []) :
    self.PumpPowerEvents bus = { result := false, self := self, calls := [] } := by
  have hnil : queue = [] := (List.append_eq_nil.mp hq).1
  subst hnil
  unfold CUPowerSyscall.PumpPowerEvents
  rw [h]
  simp only [hq]
  cases self
  simp_all

theorem pump_sleeping (self : CUPowerSyscall) (bus : PumpInput)
    (queue rest : List DBusMessage) (msg : DBusMessage)
    (h : self.m_connection = some queue) (hq : queue ++ bus.arrivals = msg :: rest)
    (hs : dbus_message_is_signal msg "org.freedesktop.UPower" "Sleeping" = true) :
    self.PumpPowerEvents bus =
      { result := true, self := popped self rest, calls := [PowerEvent.OnSleep] } := by
  unfold CUPowerSyscall.PumpPowerEvents
  rw [h]
  simp only [hq, hs, if_true, popped]

theorem pump_resuming (self : CUPowerSyscall) (bus : PumpInput)
    (queue rest : List DBusMessage) (msg : DBusMessage)
    (h : self.m_connection = some queue) (hq : queue ++ bus.arrivals = msg :: rest)
    (hs : dbus_message_is_signal msg "org.freedesktop.UPower" "Sleeping" = false)
    (hr : dbus_message_is_signal msg "org.freedesktop.UPower" "Resuming" = true) :
    self.PumpPowerEvents bus =
      { result := true, self := popped self rest, calls := [PowerEvent.OnWake] } := by
  unfold CUPowerSyscall.PumpPowerEvents
  rw [h]
  simp [hq, hs, hr, popped]

theorem pump_changed (self : CUPowerSyscall) (bus : PumpInput)
    (queue rest : List DBusMessage) (msg : DBusMessage)
    (h : self.m_connection = some queue) (hq : queue ++ bus.arrivals = msg :: rest)
    (hs : dbus_message_is_signal msg "org.freedesktop.UPower" "Sleeping" = false)
    (hr : dbus_message_is_signal msg "org.freedesktop.UPower" "Resuming" = false)
    (hc : dbus_message_is_signal msg "org.freedesktop.UPower" "Changed" = true) :
    self.PumpPowerEvents bus =
      { result := true
        self := (popped self rest).UpdateCapabilities bus.canSuspend bus.canHibernate
        calls := [] } := by
  unfold CUPowerSyscall.PumpPowerEvents
  rw [h]
  simp [hq, hs, hr, hc, popped, CUPowerSyscall.UpdateCapabilities]

theorem pump_unknown (self : CUPowerSyscall) (bus : PumpInput)
    (queue rest : List DBusMessage) (msg : DBusMessage)
    (h : self.m_connection = some queue) (hq : queue ++ bus.arrivals = msg :: rest)
    (hs : dbus_message_is_signal msg "org.freedesktop.UPower" "Sleeping" = false)
    (hr : dbus_message_is_signal msg "org.freedesktop.UPower" "Resuming" = false)
    (hc : dbus_message_is_signal msg "org.freedesktop.UPower" "Changed" = false) :
    self.PumpPowerEvents bus = { result := true, self := popped self rest, calls := [] } := by
  unfold CUPowerSyscall.PumpPowerEvents
  rw [h]
  simp [hq, hs, hr, hc, popped]

/-- A message is a signal of at most one member name. -/
theorem is_signal_member_unique (msg : DBusMessage) (iface name other : String)
    (hne : name ≠ other) (h : dbus_message_is_signal msg iface name = true) :
    dbus_message_is_signal msg iface other = false := by
  unfold dbus_message_is_signal at *
  simp only [Bool.and_eq_true, beq_iff_eq] at h
  have hm : msg.member ≠ other := by
    rw [h.2]
    exact hne
  simp [hm]

/-- Every outcome of a pump step on a live connection with a pending message:
the value is true, the head is popped, and the other members are those of the
adapter, except the two capability flags. -/
theorem pump_cons_shape (self : CUPowerSyscall) (bus : PumpInput)
    (queue rest : List DBusMessage) (msg : DBusMessage)
    (h : self.m_connection = some queue) (hq : queue ++ bus.arrivals = msg :: rest) :
    (self.PumpPowerEvents bus).result = true ∧
      (self.PumpPowerEvents bus).self.m_connection = some rest := by
  cases hs : dbus_message_is_signal msg "org.freedesktop.UPower" "Sleeping"
  · cases hr : dbus_message_is_signal msg "org.freedesktop.UPower" "Resuming"
    · cases hc : dbus_message_is_signal msg "org.freedesktop.UPower" "Changed"
      · rw [pump_unknown self bus queue rest msg h hq hs hr hc]
        exact ⟨rfl, rfl⟩
      · rw [pump_changed self bus queue rest msg h hq hs hr hc]
        exact ⟨rfl, rfl⟩
    · rw [pump_resuming self bus queue rest msg h hq hs hr]
      exact ⟨rfl, rfl⟩
  · rw [pump_sleeping self bus queue rest msg h hq hs]
    exact ⟨rfl, rfl⟩

/-- A pump step changes neither the fixed flags nor the low-battery flag nor
the source list, keeps a null connection null, and never invokes
`OnLowBattery` unless the flag rose during the step. -/
theorem pump_preserves (self : CUPowerSyscall) (bus : PumpInput) :
    (self.PumpPowerEvents bus).self.m_CanPowerdown = self.m_CanPowerdown ∧
      (self.PumpPowerEvents bus).self.m_CanReboot = self.m_CanReboot ∧
      (self.PumpPowerEvents bus).self.m_lowBattery = self.m_lowBattery ∧
      (self.PumpPowerEvents bus).self.m_powerSources = self.m_powerSources ∧
      ((self.PumpPowerEvents bus).self.m_connection = none ↔ self.m_connection = none) ∧
      PowerEvent.OnLowBattery ∉ (self.PumpPowerEvents bus).calls := by
  cases h : self.m_connection with
  | none =>
    rw [pump_null self bus h]
    simp [h]
  | some queue =>
    cases hq : queue ++ bus.arrivals with
    | nil =>
      rw [pump_empty self bus queue h hq]
      simp [h]
    | cons msg rest =>
      cases hs : dbus_message_is_signal msg "org.freedesktop.UPower" "Sleeping"
      · cases hr : dbus_message_is_signal msg "org.freedesktop.UPower" "Resuming"
        · cases hc : dbus_message_is_signal msg "org.freedesktop.UPower" "Changed"
          · rw [pump_unknown self bus queue rest msg h hq hs hr hc]
            simp [popped]
          · rw [pump_changed self bus queue rest msg h hq hs hr hc]
            simp [popped, CUPowerSyscall.UpdateCapabilities]
        · rw [pump_resuming self bus queue rest msg h hq hs hr]
          simp [popped]
      · rw [pump_sleeping self bus queue rest msg h hq hs]
        simp [popped]

/-- C6: a pump step on a live connection that consumes the message `msg`
returns true in every case, pops `msg` from the queue, and dispatches on the
signal kind: "Sleeping" invokes `OnSleep` once and nothing else; "Resuming"
invokes `OnWake` once and nothing else; "Changed" invokes no hook and leaves
the adapter as `UpdateCapabilities()` makes it; any other message invokes no
hook and leaves every member of the adapter as it was (the queue has lost the
consumed message). -/
theorem PumpPowerEvents_dispatch (self : CUPowerSyscall) (bus : PumpInput)
    (queue rest : List DBusMessage) (msg : DBusMessage)
    (h : self.m_connection = some queue) (hq : queue ++ bus.arrivals = msg :: rest) :
    (dbus_message_is_signal msg "org.freedesktop.UPower" "Sleeping" = true →
        self.PumpPowerEvents bus =
          { result := true, self := popped self rest, calls := [PowerEvent.OnSleep] }) ∧
      (dbus_message_is_signal msg "org.freedesktop.UPower" "Resuming" = true →
        self.PumpPowerEvents bus =
          { result := true, self := popped self rest, calls := [PowerEvent.OnWake] }) ∧
      (dbus_message_is_signal msg "org.freedesktop.UPower" "Changed" = true →
        self.PumpPowerEvents bus =
          { result := true
            self := (popped self rest).UpdateCapabilities bus.canSuspend bus.canHibernate
            calls := [] }) ∧
      (dbus_message_is_signal msg "org.freedesktop.UPower" "Sleeping" = false →
        dbus_message_is_signal msg "org.freedesktop.UPower" "Resuming" = false →
        dbus_message_is_signal msg "org.freedesktop.UPower" "Changed" = false →
        self.PumpPowerEvents bus =
          { result := true, self := popped self rest, calls := [] }) ∧
      (self.PumpPowerEvents bus).result = true := by
  refine ⟨?_, ?_, ?_, ?_, (pump_cons_shape self bus queue rest msg h hq).1⟩
  · intro hs
    exact pump_sleeping self bus queue rest msg h hq hs
  · intro hr
    exact pump_resuming self bus queue rest msg h hq
      (is_signal_member_unique msg _ "Resuming" "Sleeping" (by decide) hr) hr
  · intro hc
    exact pump_changed self bus queue rest msg h hq
      (is_signal_member_unique msg _ "Changed" "Sleeping" (by decide) hc)
      (is_signal_member_unique msg _ "Changed" "Resuming" (by decide) hc) hc
  · intro hs hr hc
    exact pump_unknown self bus queue rest msg h hq hs hr hc

/-- C6 at concrete adapters: a "Sleeping" signal arriving on the empty queue
invokes `OnSleep` once; a "Resuming" signal invokes `OnWake` once; a queued
"Changed" signal invokes nothing and the capabilities become the reported
ones; a "DeviceAdded" signal invokes nothing and only leaves the queue; each
call returns true. -/
theorem PumpPowerEvents_dispatch_witness :
    oneBattery.PumpPowerEvents (arriving [upowerSignal "Sleeping"]) =
        { result := true, self := popped oneBattery [], calls := [PowerEvent.OnSleep] } ∧
      oneBattery.PumpPowerEvents (arriving [upowerSignal "Resuming"]) =
        { result := true, self := popped oneBattery [], calls := [PowerEvent.OnWake] } ∧
      threeQueued.PumpPowerEvents (arriving []) =
        { result := true
          self := (popped threeQueued
            [upowerSignal "Sleeping", upowerSignal "DeviceAdded"]).UpdateCapabilities
              (CVariant.VariantTypeBoolean true) (CVariant.VariantTypeBoolean false)
          calls := [] } ∧
      oneBattery.PumpPowerEvents (arriving [upowerSignal "DeviceAdded"]) =
        { result := true, self := popped oneBattery [], calls := [] } ∧
      (oneBattery.PumpPowerEvents (arriving [upowerSignal "DeviceAdded"])).result = true :=
  ⟨(PumpPowerEvents_dispatch oneBattery (arriving [upowerSignal "Sleeping"]) [] []
      (upowerSignal "Sleeping") rfl rfl).1 (by decide),
    (PumpPowerEvents_dispatch oneBattery (arriving [upowerSignal "Resuming"]) [] []
      (upowerSignal "Resuming") rfl rfl).2.1 (by decide),
    (PumpPowerEvents_dispatch threeQueued (arriving [])
      [upowerSignal "Changed", upowerSignal "Sleeping", upowerSignal "DeviceAdded"]
      [upowerSignal "Sleeping", upowerSignal "DeviceAdded"]
      (upowerSignal "Changed") rfl rfl).2.2.1 (by decide),
    (PumpPowerEvents_dispatch oneBattery (arriving [upowerSignal "DeviceAdded"]) [] []
      (upowerSignal "DeviceAdded") rfl rfl).2.2.2.1 (by decide) (by decide) (by decide),
    (PumpPowerEvents_dispatch oneBattery (arriving [upowerSignal "DeviceAdded"]) [] []
      (upowerSignal "DeviceAdded") rfl rfl).2.2.2.2⟩

/-! ## `PumpPowerEvents`: draining the queue -/

theorem pumpAll_drain (queue : List DBusMessage) :
    ∀ (self : CUPowerSyscall) (inputs : List PumpInput),
      self.m_connection = some queue →
      (∀ bus ∈ inputs, bus.arrivals = []) →
      inputs.length = queue.length + 1 →
      (CUPowerSyscall.pumpAll self inputs).map (fun out => out.result) =
        List.replicate queue.length true ++ [false] := by
  induction queue with
  | nil =>
    intro self inputs h hno hlen
    match inputs, hno, hlen with
    | [bus], hno, _ =>
      have hq : ([] : List DBusMessage) ++ bus.arrivals = [] := by
        rw [hno bus (List.mem_singleton.mpr rfl)]
        rfl
      simp [CUPowerSyscall.pumpAll, pump_empty self bus [] h hq]
  | cons msg rest ih =>
    intro self inputs h hno hlen
    match inputs, hno, hlen with
    | bus :: more, hno, hlen =>
      have hq : (msg :: rest) ++ bus.arrivals = msg :: rest := by
        rw [hno bus (List.mem_cons_self _ _)]
        simp
      have shape := pump_cons_shape self bus (msg :: rest) rest msg h hq
      have hmore := ih (self.PumpPowerEvents bus).self more shape.2
        (fun b hb => hno b (List.mem_cons_of_mem _ hb))
        (by simpa using hlen)
      simp only [CUPowerSyscall.pumpAll, List.map_cons, shape.1, hmore, List.length_cons,
        List.replicate_succ, List.cons_append]

/-- C3: on a live connection, a pump step returns false, invokes no hook and
leaves the adapter as it was when the incoming queue (with what has just
arrived) is empty; otherwise it returns true and the queue afterwards is the
queue without its head; so with n messages queued and no arrival, the first n
of n+1 successive calls return true and the last returns false. -/
theorem PumpPowerEvents_one_per_call (self : CUPowerSyscall) (queue : List DBusMessage)
    (h : self.m_connection = some queue) :
    (∀ bus : PumpInput, queue ++ bus.arrivals = [] →
        self.PumpPowerEvents bus = { result := false, self := self, calls := [] }) ∧
      (∀ (bus : PumpInput) (msg : DBusMessage) (rest : List DBusMessage),
        queue ++ bus.arrivals = msg :: rest →
        (self.PumpPowerEvents bus).result = true ∧
          (self.PumpPowerEvents bus).self.m_connection = some rest) ∧
      (∀ inputs : List PumpInput, (∀ bus ∈ inputs, bus.arrivals = []) →
        inputs.length = queue.length + 1 →
        (CUPowerSyscall.pumpAll self inputs).map (fun out => out.result) =
          List.replicate queue.length true ++ [false]) :=
  ⟨fun bus hq => pump_empty self bus queue h hq,
    fun bus msg rest hq => pump_cons_shape self bus queue rest msg h hq,
    fun inputs hno hlen => pumpAll_drain queue self inputs h hno hlen⟩

/-- C3 at a concrete adapter: three messages queued and nothing arriving, four
calls return true, true, true, false. -/
theorem PumpPowerEvents_one_per_call_witness :
    (CUPowerSyscall.pumpAll threeQueued
        [arriving [], arriving [], arriving [], arriving []]).map (fun out => out.result) =
      [true, true, true, false] :=
  (PumpPowerEvents_one_per_call threeQueued
    [upowerSignal "Changed", upowerSignal "Sleeping", upowerSignal "DeviceAdded"] rfl).2.2
    [arriving [], arriving [], arriving [], arriving []]
    (by simp [arriving]) rfl

/-! ## Invariants of the adapter -/

theorem new_fixed (bus : CUPowerSyscall.ConstructorInput) :
    (CUPowerSyscall.new bus).m_CanPowerdown = false ∧
      (CUPowerSyscall.new bus).m_CanReboot = false ∧
      (CUPowerSyscall.new bus).m_lowBattery = false ∧
      (CUPowerSyscall.new bus).m_CanSuspend = bus.canSuspend.asBoolean false ∧
      (CUPowerSyscall.new bus).m_CanHibernate = bus.canHibernate.asBoolean false ∧
      (CUPowerSyscall.new bus).m_connection =
        if bus.connected then (if bus.matchError then none else some bus.queued) else none := by
  unfold CUPowerSyscall.new CUPowerSyscall.EnumeratePowerSources
    CUPowerSyscall.UpdateCapabilities
  cases bus.enumerateReply with
  | none => simp
  | some body => cases body <;> simp

/-- No operation changes the powerdown flag, the reboot flag or the low-battery
flag, none revives a null connection, and none invokes `OnLowBattery`; with a
null connection no hook is invoked at all. -/
theorem perform_preserves (self : CUPowerSyscall) (op : Operation) :
    (perform self op).1.m_CanPowerdown = self.m_CanPowerdown ∧
      (perform self op).1.m_CanReboot = self.m_CanReboot ∧
      (perform self op).1.m_lowBattery = self.m_lowBattery ∧
      ((perform self op).1.m_connection = none ↔ self.m_connection = none) ∧
      PowerEvent.OnLowBattery ∉ (perform self op).2 ∧
      (self.m_connection = none → (perform self op).2 = []) := by
  cases op with
  | PumpPowerEvents bus =>
    have hp := pump_preserves self bus
    refine ⟨hp.1, hp.2.1, hp.2.2.1, hp.2.2.2.2.1, hp.2.2.2.2.2, ?_⟩
    intro hnull
    simp [perform, pump_null self bus hnull]
  | EnumeratePowerSources reply answers =>
    cases reply with
    | none => simp [perform, CUPowerSyscall.EnumeratePowerSources]
    | some body => cases body <;> simp [perform, CUPowerSyscall.EnumeratePowerSources]
  | _ => simp [perform, CUPowerSyscall.BatteryLevel, CUPowerSyscall.UpdateCapabilities]

theorem performAll_preserves (ops : List Operation) :
    ∀ self : CUPowerSyscall,
      (performAll self ops).1.m_CanPowerdown = self.m_CanPowerdown ∧
        (performAll self ops).1.m_CanReboot = self.m_CanReboot ∧
        (performAll self ops).1.m_lowBattery = self.m_lowBattery ∧
        ((performAll self ops).1.m_connection = none ↔ self.m_connection = none) ∧
        PowerEvent.OnLowBattery ∉ (performAll self ops).2 ∧
        (self.m_connection = none → (performAll self ops).2 = []) := by
  induction ops with
  | nil =>
    intro self
    simp [performAll]
  | cons op rest ih =>
    intro self
    have h1 := perform_preserves self op
    have h2 := ih (perform self op).1
    simp only [performAll]
    refine ⟨h2.1.trans h1.1, h2.2.1.trans h1.2.1, h2.2.2.1.trans h1.2.2.1,
      h2.2.2.2.1.trans h1.2.2.2.1, ?_, ?_⟩
    · intro hmem
      rcases List.mem_append.mp hmem with hm | hm
      · exact h1.2.2.2.2.1 hm
      · exact h2.2.2.2.2.1 hm
    · intro hnull
      rw [h1.2.2.2.2.2 hnull, h2.2.2.2.2.2 (h1.2.2.2.1.mpr hnull)]
      rfl

theorem pumpAll_null (inputs : List PumpInput) (self : CUPowerSyscall)
    (h : self.m_connection = none) :
    CUPowerSyscall.pumpAll self inputs =
      inputs.map (fun _ => { result := false, self := self, calls := [] }) := by
  induction inputs with
  | nil => rfl
  | cons bus rest ih => simp [CUPowerSyscall.pumpAll, pump_null self bus h, ih]

/-- C4: when `Connect` fails, or the signal match cannot be added and the
connection is destroyed, the connection is null after construction and after
any sequence of operations; every call of `PumpPowerEvents` then returns
false, invokes no hook and leaves the adapter as it was, however many calls
are made; and no operation of the sequence has invoked a hook. -/
theorem PumpPowerEvents_after_failed_connect (bus : CUPowerSyscall.ConstructorInput)
    (h : bus.connected = false ∨ bus.matchError = true) (ops : List Operation) :
    (performAll (CUPowerSyscall.new bus) ops).1.m_connection = none ∧
      (performAll (CUPowerSyscall.new bus) ops).2 = [] ∧
      (∀ input : PumpInput,
        (performAll (CUPowerSyscall.new bus) ops).1.PumpPowerEvents input =
          { result := false, self := (performAll (CUPowerSyscall.new bus) ops).1, calls := [] }) ∧
      (∀ inputs : List PumpInput,
        CUPowerSyscall.pumpAll (performAll (CUPowerSyscall.new bus) ops).1 inputs =
          inputs.map (fun _ =>
            { result := false
              self := (performAll (CUPowerSyscall.new bus) ops).1
              calls := [] })) := by
  have hnew : (CUPowerSyscall.new bus).m_connection = none := by
    rw [(new_fixed bus).2.2.2.2.2]
    rcases h with h | h <;> simp [h]
  have hall := performAll_preserves ops (CUPowerSyscall.new bus)
  have hnull : (performAll (CUPowerSyscall.new bus) ops).1.m_connection = none :=
    hall.2.2.2.1.mpr hnew
  exact ⟨hnull, hall.2.2.2.2.2 hnew, fun input => pump_null _ input hnull,
    fun inputs => pumpAll_null inputs _ hnull⟩

/-- C4 at a concrete construction: the match is refused, then a battery query
and a pump step are made; a further pump step with a "Sleeping" signal
arriving returns false and invokes nothing. -/
theorem PumpPowerEvents_after_failed_connect_witness :
    (performAll (CUPowerSyscall.new refusedMatch)
        [Operation.BatteryLevel [percentage 54],
          Operation.PumpPowerEvents (arriving [upowerSignal "Resuming"])]).2 = [] ∧
      ((performAll (CUPowerSyscall.new refusedMatch)
        [Operation.BatteryLevel [percentage 54],
          Operation.PumpPowerEvents (arriving [upowerSignal "Resuming"])]).1.PumpPowerEvents
          (arriving [upowerSignal "Sleeping"])).result = false ∧
      ((performAll (CUPowerSyscall.new refusedMatch)
        [Operation.BatteryLevel [percentage 54],
          Operation.PumpPowerEvents (arriving [upowerSignal "Resuming"])]).1.PumpPowerEvents
          (arriving [upowerSignal "Sleeping"])).calls = [] := by
  have key := PumpPowerEvents_after_failed_connect refusedMatch (Or.inr rfl)
    [Operation.BatteryLevel [percentage 54],
      Operation.PumpPowerEvents (arriving [upowerSignal "Resuming"])]
  refine ⟨key.2.1, ?_, ?_⟩
  · rw [key.2.2.1 (arriving [upowerSignal "Sleeping"])]
  · rw [key.2.2.1 (arriving [upowerSignal "Sleeping"])]

/-- C5: in every state reached from construction by any sequence of
operations, with any answers of the bus, `CanPowerdown()` and `CanReboot()`
return false (and `Powerdown()` and `Reboot()` return false). -/
theorem CanPowerdown_CanReboot_false (bus : CUPowerSyscall.ConstructorInput)
    (ops : List Operation) :
    (performAll (CUPowerSyscall.new bus) ops).1.CanPowerdown = false ∧
      (performAll (CUPowerSyscall.new bus) ops).1.CanReboot = false ∧
      (performAll (CUPowerSyscall.new bus) ops).1.Powerdown = false ∧
      (performAll (CUPowerSyscall.new bus) ops).1.Reboot = false := by
  have hall := performAll_preserves ops (CUPowerSyscall.new bus)
  have hnew := new_fixed bus
  exact ⟨hall.1.trans hnew.1, hall.2.1.trans hnew.2.1, rfl, rfl⟩

/-- C10: in every state reached from construction by any sequence of
operations the low-battery flag is false; no operation of the sequence has
invoked `OnLowBattery`, and no further pump step does, whatever messages
arrive and whatever the daemon answers. -/
theorem lowBattery_never_set (bus : CUPowerSyscall.ConstructorInput) (ops : List Operation) :
    (performAll (CUPowerSyscall.new bus) ops).1.m_lowBattery = false ∧
      PowerEvent.OnLowBattery ∉ (performAll (CUPowerSyscall.new bus) ops).2 ∧
      (∀ input : PumpInput,
        PowerEvent.OnLowBattery ∉
          ((performAll (CUPowerSyscall.new bus) ops).1.PumpPowerEvents input).calls) ∧
      (∀ (self : CUPowerSyscall) (canSuspend canHibernate : CVariant),
        (self.UpdateCapabilities canSuspend canHibernate).m_lowBattery = self.m_lowBattery) := by
  have hall := performAll_preserves ops (CUPowerSyscall.new bus)
  have hnew := new_fixed bus
  exact ⟨hall.2.2.1.trans hnew.2.2.1, hall.2.2.2.2.1,
    fun input => (pump_preserves _ input).2.2.2.2.2, fun _ _ _ => rfl⟩

/-- C5 and the fixed flags at a concrete run: construction, a "Changed" step
and a battery query. -/
theorem CanPowerdown_CanReboot_false_witness :
    (performAll (CUPowerSyscall.new connectedBus)
        [changedStep, Operation.BatteryLevel []]).1.CanPowerdown = false ∧
      (performAll (CUPowerSyscall.new connectedBus)
        [changedStep, Operation.BatteryLevel []]).1.CanReboot = false :=
  ⟨(CanPowerdown_CanReboot_false connectedBus [changedStep, Operation.BatteryLevel []]).1,
    (CanPowerdown_CanReboot_false connectedBus [changedStep, Operation.BatteryLevel []]).2.1⟩

/-- C10 at a concrete run: after construction and a "Changed" step the flag is
false and no hook was invoked by the step. -/
theorem lowBattery_never_set_witness :
    (performAll (CUPowerSyscall.new connectedBus) [changedStep]).1.m_lowBattery = false ∧
      (performAll (CUPowerSyscall.new connectedBus) [changedStep]).2 = [] :=
  ⟨(lowBattery_never_set connectedBus [changedStep]).1, by decide⟩

/-! ## Capabilities -/

/-- An operation that performs a capability query sets both flags from its
answers; any other operation leaves both flags as they were. -/
theorem perform_capabilities (self : CUPowerSyscall) (op : Operation) :
    (perform self op).1.m_CanSuspend =
        ((capabilityQuery self op).map fun q => q.1.asBoolean false).getD self.m_CanSuspend ∧
      (perform self op).1.m_CanHibernate =
        ((capabilityQuery self op).map fun q => q.2.asBoolean false).getD
          self.m_CanHibernate := by
  cases op with
  | PumpPowerEvents bus =>
    cases h : self.m_connection with
    | none => simp [perform, capabilityQuery, h, pump_null self bus h]
    | some queue =>
      cases hq : queue ++ bus.arrivals with
      | nil => simp [perform, capabilityQuery, h, hq, pump_empty self bus queue h hq]
      | cons msg rest =>
        cases hc : dbus_message_is_signal msg "org.freedesktop.UPower" "Changed"
        · cases hs : dbus_message_is_signal msg "org.freedesktop.UPower" "Sleeping"
          · cases hr : dbus_message_is_signal msg "org.freedesktop.UPower" "Resuming"
            · simp [perform, capabilityQuery, h, hq, hc, popped,
                pump_unknown self bus queue rest msg h hq hs hr hc]
            · simp [perform, capabilityQuery, h, hq, hc, popped,
                pump_resuming self bus queue rest msg h hq hs hr]
          · simp [perform, capabilityQuery, h, hq, hc, popped,
              pump_sleeping self bus queue rest msg h hq hs]
        · simp [perform, capabilityQuery, h, hq, hc, popped, CUPowerSyscall.UpdateCapabilities,
            pump_changed self bus queue rest msg h hq
              (is_signal_member_unique msg _ "Changed" "Sleeping" (by decide) hc)
              (is_signal_member_unique msg _ "Changed" "Resuming" (by decide) hc) hc]
  | EnumeratePowerSources reply answers =>
    cases reply with
    | none => simp [perform, capabilityQuery, CUPowerSyscall.EnumeratePowerSources]
    | some body =>
      cases body <;> simp [perform, capabilityQuery, CUPowerSyscall.EnumeratePowerSources]
  | _ =>
    simp [perform, capabilityQuery, CUPowerSyscall.BatteryLevel,
      CUPowerSyscall.UpdateCapabilities]

theorem performAll_capabilities (ops : List Operation) :
    ∀ (self : CUPowerSyscall) (latest : CVariant × CVariant),
      self.m_CanSuspend = latest.1.asBoolean false →
      self.m_CanHibernate = latest.2.asBoolean false →
      (performAll self ops).1.m_CanSuspend = (latestQuery self ops latest).1.asBoolean false ∧
        (performAll self ops).1.m_CanHibernate =
          (latestQuery self ops latest).2.asBoolean false := by
  induction ops with
  | nil =>
    intro self latest hs hh
    exact ⟨hs, hh⟩
  | cons op rest ih =>
    intro self latest hs hh
    have h1 := perform_capabilities self op
    simp only [performAll, latestQuery]
    apply ih
    · rw [h1.1]
      cases capabilityQuery self op <;> simp [hs]
    · rw [h1.2]
      cases capabilityQuery self op <;> simp [hh]

/-- C8: `UpdateCapabilities()` sets each capability flag to the boolean the
daemon reported in that query and to false when that query failed; an
operation that performs no capability query changes neither flag; hence in
every state reached from construction `CanSuspend()` and `CanHibernate()` are
the booleans reported in the most recent capability query (at construction or
on a "Changed" signal), false where it failed. -/
theorem capabilities_reflect_latest_query (bus : CUPowerSyscall.ConstructorInput)
    (ops : List Operation) :
    (∀ (self : CUPowerSyscall) (answer other : CVariant),
        (∀ b, answer = CVariant.VariantTypeBoolean b →
          (self.UpdateCapabilities answer other).CanSuspend = b ∧
            (self.UpdateCapabilities other answer).CanHibernate = b) ∧
        (answer = CVariant.VariantTypeNull →
          (self.UpdateCapabilities answer other).CanSuspend = false ∧
            (self.UpdateCapabilities other answer).CanHibernate = false)) ∧
      (∀ (self : CUPowerSyscall) (op : Operation), capabilityQuery self op = none →
        (perform self op).1.CanSuspend = self.CanSuspend ∧
          (perform self op).1.CanHibernate = self.CanHibernate) ∧
      (∀ b, (latestQuery (CUPowerSyscall.new bus) ops (bus.canSuspend, bus.canHibernate)).1
          = CVariant.VariantTypeBoolean b →
        (performAll (CUPowerSyscall.new bus) ops).1.CanSuspend = b) ∧
      ((latestQuery (CUPowerSyscall.new bus) ops (bus.canSuspend, bus.canHibernate)).1
          = CVariant.VariantTypeNull →
        (performAll (CUPowerSyscall.new bus) ops).1.CanSuspend = false) ∧
      (∀ b, (latestQuery (CUPowerSyscall.new bus) ops (bus.canSuspend, bus.canHibernate)).2
          = CVariant.VariantTypeBoolean b →
        (performAll (CUPowerSyscall.new bus) ops).1.CanHibernate = b) ∧
      ((latestQuery (CUPowerSyscall.new bus) ops (bus.canSuspend, bus.canHibernate)).2
          = CVariant.VariantTypeNull →
        (performAll (CUPowerSyscall.new bus) ops).1.CanHibernate = false) := by
  have hnew := new_fixed bus
  have hall := performAll_capabilities ops (CUPowerSyscall.new bus)
    (bus.canSuspend, bus.canHibernate) hnew.2.2.2.1 hnew.2.2.2.2.1
  refine ⟨?_, ?_, ?_, ?_, ?_, ?_⟩
  · intro self answer other
    constructor
    · intro b hb
      subst hb
      exact ⟨rfl, rfl⟩
    · intro hnull
      subst hnull
      exact ⟨rfl, rfl⟩
  · intro self op hnone
    have h1 := perform_capabilities self op
    rw [hnone] at h1
    exact h1
  · intro b hb
    simp only [CUPowerSyscall.CanSuspend, hall.1, hb, CVariant.asBoolean]
  · intro hnull
    simp only [CUPowerSyscall.CanSuspend, hall.1, hnull, CVariant.asBoolean]
  · intro b hb
    simp only [CUPowerSyscall.CanHibernate, hall.2, hb, CVariant.asBoolean]
  · intro hnull
    simp only [CUPowerSyscall.CanHibernate, hall.2, hnull, CVariant.asBoolean]

/-- C8 at a concrete run: constructed with "can suspend" reported and the
"CanHibernate" query failing, the adapter reports (true, false); after a
"Changed" signal with (false, true) reported and a battery query, it reports
(false, true). -/
theorem capabilities_reflect_latest_query_witness :
    (performAll (CUPowerSyscall.new connectedBus) []).1.CanSuspend = true ∧
      (performAll (CUPowerSyscall.new connectedBus) []).1.CanHibernate = false ∧
      (performAll (CUPowerSyscall.new connectedBus)
        [changedStep, Operation.BatteryLevel []]).1.CanSuspend = false ∧
      (performAll (CUPowerSyscall.new connectedBus)
        [changedStep, Operation.BatteryLevel []]).1.CanHibernate = true :=
  ⟨(capabilities_reflect_latest_query connectedBus []).2.2.1 true rfl,
    (capabilities_reflect_latest_query connectedBus []).2.2.2.2.2 rfl,
    (capabilities_reflect_latest_query connectedBus
      [changedStep, Operation.BatteryLevel []]).2.2.1 false
      (by simp [latestQuery, capabilityQuery, perform, changedStep, connectedBus,
        CUPowerSyscall.new, CUPowerSyscall.UpdateCapabilities,
        CUPowerSyscall.EnumeratePowerSources, dbus_message_is_signal, upowerSignal]),
    (capabilities_reflect_latest_query connectedBus
      [changedStep, Operation.BatteryLevel []]).2.2.2.2.1 true
      (by simp [latestQuery, capabilityQuery, perform, changedStep, connectedBus,
        CUPowerSyscall.new, CUPowerSyscall.UpdateCapabilities,
        CUPowerSyscall.EnumeratePowerSources, dbus_message_is_signal, upowerSignal])⟩

/-! ## The low-battery notification -/

end UPower
